import Mathlib

/-!
Verification of the kicad-lib-parse mapping core (`src/models.py`): a shallow
embedding of the decoder/encoder between generic s-expression nodes and the
typed footprint entities, together with theorems settling the frozen claims
about that core.
-/

set_option maxHeartbeats 1000000

namespace Kicad

/-- Generic s-expression node as produced by the external tokenizer: an atom
(symbol, string, or number) or an ordered sequence of nodes.  Number atoms are
modelled as rationals, which carry the decimal literals of the format without
loss. -/
inductive SNode where
  | sym : String → SNode
  | str : String → SNode
  | num : ℚ → SNode
  | list : List SNode → SNode

instance {ε α : Type} [DecidableEq ε] [DecidableEq α] : DecidableEq (Except ε α) :=
  fun x y =>
    match x, y with
    | .ok a, .ok b =>
      if h : a = b then .isTrue (congrArg Except.ok h)
      else .isFalse (fun hc => h (Except.ok.inj hc))
    | .error a, .error b =>
      if h : a = b then .isTrue (congrArg Except.error h)
      else .isFalse (fun hc => h (Except.error.inj hc))
    | .ok _, .error _ => .isFalse (fun hc => Except.noConfusion hc)
    | .error _, .ok _ => .isFalse (fun hc => Except.noConfusion hc)

/-- Models Python float-to-string formatting of a numeric value.  No decoder
compares the rendered digits against a keyword, so only the shape of the
token matters for the properties proved below. -/
def ratStr (q : ℚ) : String :=
  if q.den = 1 then toString q.num ++ ".0"
  else toString q.num ++ "/" ++ toString q.den

/-- Models Python `str(x)` on a node.  `sexpdata.Symbol` subclasses `str`, so a
symbol renders as its name; a sequence renders as Python list syntax, which
begins with a bracket and therefore never equals any keyword that the
decoders compare it against. -/
def SNode.pyStr : SNode → String
  | .sym s => s
  | .str s => s
  | .num q => ratStr q
  | .list _ => "[...]"

/-- Numeric value of a list of decimal digit characters. -/
def digitsVal (ds : List Char) : ℕ :=
  ds.foldl (fun a c => 10 * a + (c.toNat - 48)) 0

/-- Discrete stage of the decimal-literal parse: negative sign, integer-part
value, fraction-part value, fraction length. -/
def parseDec (s : String) : Option (Bool × ℕ × ℕ × ℕ) :=
  let go : List Char → Option (ℕ × ℕ × ℕ) := fun cs =>
    let ip := cs.takeWhile Char.isDigit
    let rest := cs.dropWhile Char.isDigit
    match rest with
    | [] => if ip.isEmpty then none else some (digitsVal ip, 0, 0)
    | '.' :: fr =>
      if (ip.isEmpty && fr.isEmpty) || !fr.all Char.isDigit then none
      else some (digitsVal ip, digitsVal fr, fr.length)
    | _ => none
  match s.toList with
  | '-' :: cs => (go cs).map (fun v => (true, v))
  | '+' :: cs => (go cs).map (fun v => (false, v))
  | cs => (go cs).map (fun v => (false, v))

/-- Exact rational value of a parsed decimal literal. -/
def ratOfParts : Bool × ℕ × ℕ × ℕ → ℚ
  | (sgn, ip, fr, k) =>
    let m : ℚ := (ip : ℚ) + (fr : ℚ) / (10 : ℚ) ^ k
    if sgn then -m else m

/-- Models Python `float(s)` on plain decimal literals (optional sign, integer
part, optional fractional part) — the only numeric token shape the format
uses; any other string fails the conversion with `ValueError`. -/
def parseFloat? (s : String) : Option ℚ :=
  (parseDec s).map ratOfParts

/-- Evaluation helper: a concrete decimal literal parses to the value of its
digits. -/
theorem parseFloat?_eval (s : String) (p : Bool × ℕ × ℕ × ℕ)
    (h : parseDec s = some p) (q : ℚ) (hq : ratOfParts p = q) :
    parseFloat? s = some q := by
  simp [parseFloat?, h, hq]

/-- Models Python `int(s)`: optional sign followed by decimal digits only. -/
def parseInt? (s : String) : Option Int :=
  let go : List Char → Option ℕ := fun cs =>
    if cs.isEmpty || !cs.all Char.isDigit then none else some (digitsVal cs)
  match s.toList with
  | '-' :: cs => (go cs).map (fun n => -(n : Int))
  | '+' :: cs => (go cs).map (fun n => (n : Int))
  | cs => (go cs).map (fun n => (n : Int))

/-- Models Python `float(x)` on a node: numbers pass through exactly, symbol
and string atoms are parsed as decimal text, and a sequence raises
`TypeError`. -/
def pyFloat? : SNode → Option ℚ
  | .num q => some q
  | .sym s => parseFloat? s
  | .str s => parseFloat? s
  | .list _ => none

/-- Models Python `int(x)` on a node: a float argument truncates toward
zero. -/
def pyInt? : SNode → Option Int
  | .num q => some (if 0 ≤ q then ⌊q⌋ else ⌈q⌉)
  | .sym s => parseInt? s
  | .str s => parseInt? s
  | .list _ => none

/-- Models Python `str.split()` with no argument: split on whitespace runs and
drop the empty pieces. -/
def pyWords (s : String) : List String :=
  (s.split Char.isWhitespace).filter (fun w => !w.isEmpty)

/-- Models Python `str.strip(chars)`: remove the given characters from both
ends. -/
def pyStrip (p : Char → Bool) (s : String) : String :=
  String.mk (((s.toList.dropWhile p).reverse.dropWhile p).reverse)

def quoteChar : Char := Char.ofNat 34

def stripQuotes (s : String) : String := pyStrip (fun c => c == quoteChar) s

/-- Python truthiness of an optional float: `None` and `0.0` are falsy. -/
def truthyQ : Option ℚ → Bool
  | none => false
  | some q => q != 0

/-- Python truthiness of an optional string: `None` and `""` are falsy. -/
def truthyS : Option String → Bool
  | none => false
  | some s => !s.isEmpty

/-- The closed layer vocabulary (source: `Layer` enum values). -/
inductive Layer where
  | F_CU | F_PASTE | F_MASK | F_SILKS | F_FAB | F_CRTYD | F_ADHES
  deriving DecidableEq

def Layer.value : Layer → String
  | .F_CU => "F.Cu"
  | .F_PASTE => "F.Paste"
  | .F_MASK => "F.Mask"
  | .F_SILKS => "F.SilkS"
  | .F_FAB => "F.Fab"
  | .F_CRTYD => "F.CrtYd"
  | .F_ADHES => "F.Adhes"

def layerVocab : List String :=
  ["F.Cu", "F.Paste", "F.Mask", "F.SilkS", "F.Fab", "F.CrtYd", "F.Adhes"]

/-- Models the `Layer(value)` enum constructor: exact, case-sensitive match
against the closed vocabulary; any other string raises `ValueError`. -/
def Layer.ofString? (s : String) : Option Layer :=
  if s = "F.Cu" then some .F_CU
  else if s = "F.Paste" then some .F_PASTE
  else if s = "F.Mask" then some .F_MASK
  else if s = "F.SilkS" then some .F_SILKS
  else if s = "F.Fab" then some .F_FAB
  else if s = "F.CrtYd" then some .F_CRTYD
  else if s = "F.Adhes" then some .F_ADHES
  else none

/-- `Layer.from_sexp`: enum lookup wrapped into the decoder error. -/
def Layer.from_sexp (s : String) : Except String Layer :=
  match Layer.ofString? s with
  | some l => .ok l
  | none => .error "Invalid layer name"

theorem layer_ofString_eq_none {s : String} (h : s ∉ layerVocab) :
    Layer.ofString? s = none := by
  simp only [layerVocab, List.mem_cons, List.not_mem_nil, or_false, not_or] at h
  obtain ⟨h1, h2, h3, h4, h5, h6, h7⟩ := h
  simp [Layer.ofString?, h1, h2, h3, h4, h5, h6, h7]

/-- The closed stroke-style vocabulary (source: `StrokeType` enum). -/
inductive StrokeType where
  | DEFAULT | SOLID | DASH | DOT | DASH_DOT | DASH_DOT_DOT
  deriving DecidableEq

def StrokeType.value : StrokeType → String
  | .DEFAULT => "default"
  | .SOLID => "solid"
  | .DASH => "dash"
  | .DOT => "dot"
  | .DASH_DOT => "dash_dot"
  | .DASH_DOT_DOT => "dash_dot_dot"

def strokeTypeVocab : List String :=
  ["default", "solid", "dash", "dot", "dash_dot", "dash_dot_dot"]

/-- Models the membership test `type_ in [t.value for t in StrokeType]`
followed by the enum coercion of the pydantic field. -/
def StrokeType.ofString? (s : String) : Option StrokeType :=
  if s = "default" then some .DEFAULT
  else if s = "solid" then some .SOLID
  else if s = "dash" then some .DASH
  else if s = "dot" then some .DOT
  else if s = "dash_dot" then some .DASH_DOT
  else if s = "dash_dot_dot" then some .DASH_DOT_DOT
  else none

theorem strokeType_ofString_eq_none {s : String} (h : s ∉ strokeTypeVocab) :
    StrokeType.ofString? s = none := by
  simp only [strokeTypeVocab, List.mem_cons, List.not_mem_nil, or_false, not_or] at h
  obtain ⟨h1, h2, h3, h4, h5, h6⟩ := h
  simp [StrokeType.ofString?, h1, h2, h3, h4, h5, h6]

/-- The closed paper-size vocabulary (source: `PaperSize` enum). -/
inductive PaperSize where
  | A0 | A1 | A2 | A3 | A4 | A5 | A | B | C | D | E
  deriving DecidableEq

def PaperSize.value : PaperSize → String
  | .A0 => "A0"
  | .A1 => "A1"
  | .A2 => "A2"
  | .A3 => "A3"
  | .A4 => "A4"
  | .A5 => "A5"
  | .A => "A"
  | .B => "B"
  | .C => "C"
  | .D => "D"
  | .E => "E"

def paperSizeVocab : List String :=
  ["A0", "A1", "A2", "A3", "A4", "A5", "A", "B", "C", "D", "E"]

/-- Models the `PaperSize(value)` enum constructor. -/
def PaperSize.ofString? (s : String) : Option PaperSize :=
  if s = "A0" then some .A0
  else if s = "A1" then some .A1
  else if s = "A2" then some .A2
  else if s = "A3" then some .A3
  else if s = "A4" then some .A4
  else if s = "A5" then some .A5
  else if s = "A" then some .A
  else if s = "B" then some .B
  else if s = "C" then some .C
  else if s = "D" then some .D
  else if s = "E" then some .E
  else none

theorem paperSize_ofString_eq_none {s : String} (h : s ∉ paperSizeVocab) :
    PaperSize.ofString? s = none := by
  simp only [paperSizeVocab, List.mem_cons, List.not_mem_nil, or_false, not_or] at h
  obtain ⟨h1, h2, h3, h4, h5, h6, h7, h8, h9, h10, h11⟩ := h
  simp [PaperSize.ofString?, h1, h2, h3, h4, h5, h6, h7, h8, h9, h10, h11]

/-- `PositionIdentifier`: x, y and an optional angle. -/
structure PositionIdentifier where
  x : ℚ
  y : ℚ
  angle : Option ℚ := none
  deriving DecidableEq

/-- Core of `PositionIdentifier.from_sexpr` after the framing has been removed
and the content split into whitespace-separated components (source lines
261-272): exactly 2 or 3 components, each converting as a float. -/
def posFromParts : List String → Except String PositionIdentifier
  | [a, b] =>
    match parseFloat? a, parseFloat? b with
    | some x, some y => .ok { x := x, y := y, angle := none }
    | _, _ => .error "Invalid numeric values in position identifier"
  | [a, b, c] =>
    match parseFloat? a, parseFloat? b, parseFloat? c with
    | some x, some y, some ang => .ok { x := x, y := y, angle := some ang }
    | _, _, _ => .error "Invalid numeric values in position identifier"
  | _ => .error "Position identifier must have 2 or 3 components"

/-- `PositionIdentifier.from_sexpr` on a raw string: whitespace normalisation,
"(at" / ")" framing check, then the component parse. -/
def PositionIdentifier.from_sexpr (s : String) : Except String PositionIdentifier :=
  let t := s.trim
  if t.startsWith "(at" && t.endsWith ")" then
    posFromParts (pyWords ((t.drop 3).dropRight 1))
  else .error "Invalid position identifier format"

/-- `PositionIdentifier.to_sexpr`: `(at x y)` or `(at x y angle)`. -/
def PositionIdentifier.to_sexpr (p : PositionIdentifier) : String :=
  match p.angle with
  | some a => "(at " ++ ratStr p.x ++ " " ++ ratStr p.y ++ " " ++ ratStr a ++ ")"
  | none => "(at " ++ ratStr p.x ++ " " ++ ratStr p.y ++ ")"

/-- The inline `PositionIdentifier(x=float(item[1]), y=float(item[2]),
angle=float(item[3]) if len(item) > 3 else None)` construction used by the
`Property` and `Pad` decoders on a tagged `at` node.  A missing index raises
`IndexError`; a failed conversion raises `ValueError`. -/
def posOfListItems : List SNode → Except String PositionIdentifier
  | _ :: i1 :: i2 :: rest =>
    match pyFloat? i1, pyFloat? i2 with
    | some x, some y =>
      match rest with
      | [] => .ok { x := x, y := y, angle := none }
      | a :: _ =>
        match pyFloat? a with
        | some ang => .ok { x := x, y := y, angle := some ang }
        | none => .error "could not convert to float"
    | _, _ => .error "could not convert to float"
  | _ => .error "IndexError"

/-- `Font` record with its pydantic defaults. -/
structure Font where
  face : Option String := none
  height : ℚ := 1
  width : ℚ := 1
  thickness : Option ℚ := none
  bold : Bool := false
  italic : Bool := false
  line_spacing : Option ℚ := none
  deriving DecidableEq

/-- The pydantic field constraints of `Font` (`ge=0` on the size-like
fields). -/
def Font.Valid (f : Font) : Prop :=
  0 ≤ f.height ∧ 0 ≤ f.width ∧
    (∀ t ∈ f.thickness, 0 ≤ t) ∧ (∀ v ∈ f.line_spacing, 0 ≤ v)

instance (f : Font) : Decidable f.Valid := by
  unfold Font.Valid; infer_instance

/-- One step of the `_parse_font` loop over the items after the `font` tag. -/
def fontStep (acc : Font) : SNode → Except String Font
  | .list l =>
    match l with
    | h :: v :: rest =>
      let t := h.pyStr
      if t = "face" then .ok { acc with face := some (stripQuotes v.pyStr) }
      else if t = "size" then
        match rest with
        | [] => .error "Missing font settings"
        | w :: _ =>
          match pyFloat? v, pyFloat? w with
          | some hq, some wq => .ok { acc with height := hq, width := wq }
          | _, _ => .error "could not convert to float"
      else if t = "thickness" then
        match pyFloat? v with
        | some q => .ok { acc with thickness := some q }
        | none => .error "could not convert to float"
      else if t = "line_spacing" then
        match pyFloat? v with
        | some q => .ok { acc with line_spacing := some q }
        | none => .error "could not convert to float"
      else .ok acc
    | _ => .ok acc
  | a =>
    if a.pyStr = "bold" then .ok { acc with bold := true }
    else if a.pyStr = "italic" then .ok { acc with italic := true }
    else .ok acc

/-- The `_parse_font` loop (source lines 166-189). -/
def fontScan : List SNode → Font → Except String Font
  | [], acc => .ok acc
  | item :: rest, acc =>
    match fontStep acc item with
    | .ok a => fontScan rest a
    | .error e => .error e

/-- `TextEffects._parse_font`: iterate the items after the `font` tag starting
from the default field values. -/
def parseFont : List SNode → Except String Font
  | [] => .ok {}
  | _ :: items => fontScan items {}

/-- `TextEffects` record. -/
structure TextEffects where
  font : Font
  justify_horizontal : Option String := none
  justify_vertical : Option String := none
  mirror : Bool := false
  hide : Bool := false
  deriving DecidableEq

/-- Accumulator of the `TextEffects.from_sexp` scanning loop; the `font` item
is remembered raw and parsed only after the loop. -/
structure TEAcc where
  font_data : Option (List SNode) := none
  justify_h : Option String := none
  justify_v : Option String := none
  mirror : Bool := false
  hide : Bool := false

/-- Inner loop over the members of a `justify` node. -/
def justifyScan : List SNode → TEAcc → TEAcc
  | [], acc => acc
  | j :: rest, acc =>
    let s := j.pyStr
    if s = "left" || s = "right" then justifyScan rest { acc with justify_h := some s }
    else if s = "top" || s = "bottom" then justifyScan rest { acc with justify_v := some s }
    else if s = "mirror" then justifyScan rest { acc with mirror := true }
    else justifyScan rest acc

/-- One step of the `TextEffects.from_sexp` loop (source lines 121-139). -/
def teStep (acc : TEAcc) : SNode → Except String TEAcc
  | .list l =>
    match l with
    | [] => .ok acc
    | h :: t =>
      if h.pyStr = "font" then
        match t with
        | [] => .error "Missing font settings"
        | _ => .ok { acc with font_data := some (h :: t) }
      else if h.pyStr = "justify" then .ok (justifyScan t acc)
      else .ok acc
  | a => if a.pyStr = "hide" then .ok { acc with hide := true } else .ok acc

def teScan : List SNode → TEAcc → Except String TEAcc
  | [], acc => .ok acc
  | item :: rest, acc =>
    match teStep acc item with
    | .ok a => teScan rest a
    | .error e => .error e

/-- `TextEffects.from_sexp` (source lines 106-151). -/
def TextEffects.from_sexp : SNode → Except String TextEffects
  | .list (d0 :: d1 :: rest) =>
    match d0 with
    | .sym "effects" =>
      match teScan (d1 :: rest) {} with
      | .error e => .error e
      | .ok acc =>
        match acc.font_data with
        | none => .error "Missing font settings"
        | some fd =>
          match parseFont fd with
          | .ok font =>
            .ok { font := font, justify_horizontal := acc.justify_h,
                  justify_vertical := acc.justify_v, mirror := acc.mirror,
                  hide := acc.hide }
          | .error e => .error e
    | _ => .error "Missing font settings"
  | _ => .error "Missing font settings"

/-- `TextEffects.to_sexp` (source lines 193-226): note the truthiness checks
`if self.font.face:`, `if self.font.thickness:` and
`if self.font.line_spacing:`, which also drop empty strings and zero
values. -/
def TextEffects.to_sexp (e : TextEffects) : SNode :=
  let fontParts : List SNode :=
    [SNode.sym "font"]
      ++ (if truthyS e.font.face then
            [SNode.list [.sym "face", .str ("\"" ++ e.font.face.getD "" ++ "\"")]]
          else [])
      ++ [SNode.list [.sym "size", .num e.font.height, .num e.font.width]]
      ++ (if truthyQ e.font.thickness then
            [SNode.list [.sym "thickness", .num (e.font.thickness.getD 0)]]
          else [])
      ++ (if e.font.bold then [SNode.sym "bold"] else [])
      ++ (if e.font.italic then [SNode.sym "italic"] else [])
      ++ (if truthyQ e.font.line_spacing then
            [SNode.list [.str "line_spacing", .str (ratStr (e.font.line_spacing.getD 0))]]
          else [])
  let justifyParts : List SNode :=
    if truthyS e.justify_horizontal || truthyS e.justify_vertical || e.mirror then
      [SNode.list
        ([SNode.sym "justify"]
          ++ (if truthyS e.justify_horizontal then
                [SNode.sym (e.justify_horizontal.getD "")] else [])
          ++ (if truthyS e.justify_vertical then
                [SNode.sym (e.justify_vertical.getD "")] else [])
          ++ (if e.mirror then [SNode.sym "mirror"] else []))]
    else []
  .list ([SNode.sym "effects", .list fontParts] ++ justifyParts
          ++ (if e.hide then [SNode.sym "hide"] else []))

/-- `Property` record. -/
structure Property where
  key : String
  value : String
  at_ : Option PositionIdentifier := none
  unlocked : Bool := false
  layer : Option Layer := none
  uuid : Option String := none
  effects : Option TextEffects := none
  hide : Bool := false
  deriving DecidableEq

/-- One step of the `Property.from_sexp` optional-tail loop (source lines
314-339): recognized tags set their field, an unrecognized tagged sub-node is
ignored, a bare atom other than `hide` raises. -/
def propStep (acc : Property) : SNode → Except String Property
  | .list [] => .error "IndexError"
  | .list (h :: t) =>
    let tag := h.pyStr
    if tag = "at" then
      match posOfListItems (h :: t) with
      | .ok p => .ok { acc with at_ := some p }
      | .error e => .error e
    else if tag = "layer" then
      match t with
      | [v] =>
        match Layer.ofString? v.pyStr with
        | some l => .ok { acc with layer := some l }
        | none => .error "Invalid layer format"
      | _ => .error "Invalid layer format"
    else if tag = "effects" then
      match TextEffects.from_sexp (.list (h :: t)) with
      | .ok eff => .ok { acc with effects := some eff }
      | .error e => .error e
    else if tag = "uuid" then
      match t with
      | v :: _ => .ok { acc with uuid := some v.pyStr }
      | [] => .error "IndexError"
    else if tag = "unlocked" then
      match t with
      | v :: _ => .ok { acc with unlocked := v.pyStr == "yes" }
      | [] => .error "IndexError"
    else .ok acc
  | a =>
    if a.pyStr = "hide" then .ok { acc with hide := true }
    else .error "Invalid optional field format"

def propScanTail : List SNode → Property → Except String Property
  | [], acc => .ok acc
  | item :: rest, acc =>
    match propStep acc item with
    | .ok a => propScanTail rest a
    | .error e => .error e

/-- `Property.from_sexp` (source lines 291-350). -/
def Property.from_sexp : SNode → Except String Property
  | .list (d0 :: d1 :: d2 :: rest) =>
    match d0 with
    | .sym "property" => propScanTail rest { key := d1.pyStr, value := d2.pyStr }
    | _ => .error "Property data must start with 'property' symbol"
  | _ => .error "Invalid property data format"

/-- `Property.to_sexp` (source lines 352-377). -/
def Property.to_sexp (p : Property) : SNode :=
  .list ([SNode.sym "property", .str p.key, .str p.value]
    ++ (match p.at_ with
        | some a => [SNode.list ([SNode.sym "at", .num a.x, .num a.y]
            ++ (match a.angle with | some ang => [SNode.num ang] | none => []))]
        | none => [])
    ++ (if p.unlocked then [SNode.list [.sym "unlocked", .sym "yes"]] else [])
    ++ (match p.layer with
        | some l => [SNode.list [.sym "layer", .str l.value]]
        | none => [])
    ++ (match p.effects with | some e => [e.to_sexp] | none => [])
    ++ (if truthyS p.uuid then [SNode.list [.sym "uuid", .str (p.uuid.getD "")]] else [])
    ++ (if p.hide then [SNode.sym "hide"] else []))

/-- `Stroke` record. -/
structure Stroke where
  width : ℚ
  type : StrokeType := .SOLID
  color : Option (Int × Int × Int × Int) := none
  deriving DecidableEq

/-- `Stroke.from_sexp` (source lines 387-443).  The tag comparisons go through
`str(...)` because the `isinstance(..., Symbol)` guards are commented out in
the source. -/
def Stroke.from_sexp : SNode → Except String Stroke
  | .list (d0 :: d1 :: d2 :: rest) =>
    if d0.pyStr = "stroke" then
      match d1 with
      | .list [w0, w1] =>
        match d2 with
        | .list [t0, t1] =>
          if w0.pyStr = "width" then
            if t0.pyStr = "type" then
              match pyFloat? w1 with
              | some width =>
                match StrokeType.ofString? t1.pyStr with
                | some ty =>
                  match rest with
                  | [] => .ok { width := width, type := ty, color := none }
                  | c :: _ =>
                    match c with
                    | .list [c0, c1, c2, c3, c4] =>
                      if c0.pyStr = "color" then
                        match pyInt? c1, pyInt? c2, pyInt? c3, pyInt? c4 with
                        | some r, some g, some b, some a =>
                          .ok { width := width, type := ty, color := some (r, g, b, a) }
                        | _, _, _, _ => .error "Invalid color values"
                      else .error "Color must start with 'color' symbol"
                    | _ => .error "Invalid color format"
                | none => .error "Invalid stroke values"
              | none => .error "Invalid stroke values"
            else .error "Type must start with 'type' symbol"
          else .error "Width must start with 'width' symbol"
        | _ => .error "Invalid type format"
      | _ => .error "Invalid width format"
    else .error "Stroke data must start with 'stroke' symbol"
  | _ => .error "Invalid stroke data format"

/-- `Stroke.to_sexp` (source lines 445-454). -/
def Stroke.to_sexp (s : Stroke) : SNode :=
  .list ([SNode.sym "stroke", .list [.sym "width", .num s.width],
          .list [.sym "type", .sym s.type.value]]
    ++ (match s.color with
        | some (r, g, b, a) =>
          [SNode.list [.sym "color", .str (toString r), .str (toString g),
                       .str (toString b), .str (toString a)]]
        | none => []))

structure Point where
  x : ℚ
  y : ℚ
  deriving DecidableEq

structure Points where
  points : List Point
  deriving DecidableEq

/-- One `(xy x y)` member of a `pts` node. -/
def pointOfNode : SNode → Except String Point
  | .list [h, xN, yN] =>
    match h with
    | .sym "xy" =>
      match pyFloat? xN, pyFloat? yN with
      | some x, some y => .ok { x := x, y := y }
      | _, _ => .error "Invalid point coordinates"
    | _ => .error "Point must start with 'xy' symbol"
  | _ => .error "Invalid point format"

def pointsScan : List SNode → Except String (List Point)
  | [] => .ok []
  | item :: rest =>
    match pointOfNode item with
    | .ok p =>
      match pointsScan rest with
      | .ok ps => .ok (p :: ps)
      | .error e => .error e
    | .error e => .error e

/-- `Points.from_sexp` (source lines 467-495): note the `len(data) < 2` guard,
which also rejects a `pts` node with zero points. -/
def Points.from_sexp : SNode → Except String Points
  | .list (d0 :: d1 :: rest) =>
    match d0 with
    | .sym "pts" =>
      match pointsScan (d1 :: rest) with
      | .ok ps => .ok { points := ps }
      | .error e => .error e
    | _ => .error "Points data must start with 'pts' symbol"
  | _ => .error "Invalid points data format"

def Points.to_sexp (p : Points) : SNode :=
  .list (SNode.sym "pts" ::
    p.points.map (fun pt => SNode.list [.sym "xy", .num pt.x, .num pt.y]))

/-- `Polygon` record; `fill` is a plain string field defaulting to
`"solid"`. -/
structure Polygon where
  points : Points
  stroke : Option Stroke := none
  fill : String := "solid"
  layer : Layer
  uuid : Option String := none
  deriving DecidableEq

/-- The fill field of `Polygon.from_sexp`: a `(fill v)` tagged node or a bare
atom, constrained to the three-valued set. -/
def polyFill (n : SNode) : Except String String :=
  let f := match n with
    | .list [h, v] => match h with | .sym "fill" => v.pyStr | _ => n.pyStr
    | _ => n.pyStr
  if f = "solid" || f = "outline" || f = "none" then .ok f
  else .error "Invalid fill type"

/-- The layer field of the `Polygon`/`Line` decoders: a `(layer v)` tagged
node or a bare atom, looked up through the `Layer` enum constructor. -/
def layerOfNode (n : SNode) : Except String Layer :=
  let s := match n with
    | .list [h, v] => match h with | .sym "layer" => v.pyStr | _ => n.pyStr
    | _ => n.pyStr
  match Layer.ofString? s with
  | some l => .ok l
  | none => .error "is not a valid Layer"

/-- The trailing optional `(uuid v)` element of `Polygon`/`Line`: read only
when the next element exists, is a sequence, and is tagged `uuid`. -/
def uuidAtOpt : List SNode → Except String (Option String)
  | [] => .ok none
  | u :: _ =>
    match u with
    | .list [] => .error "IndexError"
    | .list (h :: t) =>
      match h with
      | .sym "uuid" =>
        match t with
        | v :: _ => .ok (some v.pyStr)
        | [] => .error "IndexError"
      | _ => .ok none
    | _ => .ok none

/-- Tail of `Polygon.from_sexp` when no stroke element is present: fill at
index 2, layer at index 3, optional uuid afterwards. -/
def polyNoStroke (points : Points) (d2 d3 : SNode) (rest : List SNode) :
    Except String Polygon :=
  match polyFill d2 with
  | .error e => .error e
  | .ok fill =>
    match layerOfNode d3 with
    | .error e => .error e
    | .ok layer =>
      match uuidAtOpt rest with
      | .error e => .error e
      | .ok uuid =>
        .ok { points := points, stroke := none, fill := fill, layer := layer,
              uuid := uuid }

/-- `Polygon.from_sexp` (source lines 511-576). -/
def Polygon.from_sexp : SNode → Except String Polygon
  | .list (d0 :: d1 :: d2 :: d3 :: rest) =>
    match d0 with
    | .sym "fp_poly" =>
      match Points.from_sexp d1 with
      | .error e => .error e
      | .ok points =>
        match d2 with
        | .list [] => .error "IndexError"
        | .list (h :: t) =>
          match h with
          | .sym s =>
            if s = "stroke" then
              match Stroke.from_sexp (.list (h :: t)) with
              | .error e => .error e
              | .ok st =>
                match polyFill d3 with
                | .error e => .error e
                | .ok fill =>
                  match rest with
                  | [] => .error "IndexError"
                  | l4 :: rest2 =>
                    match layerOfNode l4 with
                    | .error e => .error e
                    | .ok layer =>
                      match uuidAtOpt rest2 with
                      | .error e => .error e
                      | .ok uuid =>
                        .ok { points := points, stroke := some st, fill := fill,
                              layer := layer, uuid := uuid }
            else polyNoStroke points d2 d3 rest
          | _ => polyNoStroke points d2 d3 rest
        | _ => polyNoStroke points d2 d3 rest
    | _ => .error "Polygon data must start with 'fp_poly' symbol"
  | _ => .error "Invalid polygon data format"

/-- `Polygon.to_sexp` (source lines 578-591). -/
def Polygon.to_sexp (p : Polygon) : SNode :=
  .list ([SNode.sym "fp_poly", p.points.to_sexp]
    ++ (match p.stroke with | some s => [s.to_sexp] | none => [])
    ++ [SNode.list [.sym "fill", .sym p.fill],
        SNode.list [.sym "layer", .str p.layer.value]]
    ++ (if truthyS p.uuid then [SNode.list [.sym "uuid", .str (p.uuid.getD "")]] else []))

/-- `Line` record (`end` is a Lean keyword, hence `end_`). -/
structure Line where
  start : Point
  end_ : Point
  stroke : Stroke
  layer : Layer
  uuid : Option String := none
  deriving DecidableEq

/-- A `(start x y)` / `(end x y)` positional element of `Line`. -/
def linePoint (tag msg : String) : SNode → Except String Point
  | .list [h, xN, yN] =>
    match h with
    | .sym s =>
      if s = tag then
        match pyFloat? xN, pyFloat? yN with
        | some x, some y => .ok { x := x, y := y }
        | _, _ => .error "could not convert to float"
      else .error msg
    | _ => .error msg
  | _ => .error msg

/-- `Line.from_sexp` (source lines 603-667). -/
def Line.from_sexp : SNode → Except String Line
  | .list (d0 :: d1 :: d2 :: d3 :: d4 :: rest) =>
    match d0 with
    | .sym "fp_line" =>
      match linePoint "start" "Invalid start point format" d1 with
      | .error e => .error e
      | .ok st =>
        match linePoint "end" "Invalid end point format" d2 with
        | .error e => .error e
        | .ok en =>
          match d3 with
          | .list [] => .error "IndexError"
          | .list (h :: t) =>
            match h with
            | .sym s =>
              if s = "stroke" then
                match Stroke.from_sexp (.list (h :: t)) with
                | .error e => .error e
                | .ok stroke =>
                  match layerOfNode d4 with
                  | .error e => .error e
                  | .ok layer =>
                    match uuidAtOpt rest with
                    | .error e => .error e
                    | .ok uuid =>
                      .ok { start := st, end_ := en, stroke := stroke,
                            layer := layer, uuid := uuid }
              else .error "Invalid stroke format"
            | _ => .error "Invalid stroke format"
          | _ => .error "Invalid stroke format"
    | _ => .error "Line data must start with 'fp_line' symbol"
  | _ => .error "Invalid line data format"

/-- `Line.to_sexp` (source lines 669-682). -/
def Line.to_sexp (l : Line) : SNode :=
  .list ([SNode.sym "fp_line",
          .list [.sym "start", .num l.start.x, .num l.start.y],
          .list [.sym "end", .num l.end_.x, .num l.end_.y],
          l.stroke.to_sexp,
          .list [.sym "layer", .str l.layer.value]]
    ++ (if truthyS l.uuid then [SNode.list [.sym "uuid", .str (l.uuid.getD "")]] else []))

/-- The optional attributes collected by the `Pad.from_sexp` tail loop. -/
structure PadOpts where
  roundrect_rratio : Option ℚ := none
  solder_mask_margin : Option ℚ := none
  thermal_bridge_angle : Option ℚ := none
  uuid : Option String := none
  deriving DecidableEq

/-- One step of the `Pad.from_sexp` optional-tail loop (source lines
757-769): an element that is not a sequence of length at least two is
skipped. -/
def padStep (acc : PadOpts) : SNode → Except String PadOpts
  | .list (h :: v :: _) =>
    let t := h.pyStr
    if t = "roundrect_rratio" then
      match pyFloat? v with
      | some q => .ok { acc with roundrect_rratio := some q }
      | none => .error "could not convert to float"
    else if t = "solder_mask_margin" then
      match pyFloat? v with
      | some q => .ok { acc with solder_mask_margin := some q }
      | none => .error "could not convert to float"
    else if t = "thermal_bridge_angle" then
      match pyFloat? v with
      | some q => .ok { acc with thermal_bridge_angle := some q }
      | none => .error "could not convert to float"
    else if t = "uuid" then .ok { acc with uuid := some v.pyStr }
    else .ok acc
  | _ => .ok acc

def padScanTail : List SNode → PadOpts → Except String PadOpts
  | [], acc => .ok acc
  | item :: rest, acc =>
    match padStep acc item with
    | .ok a => padScanTail rest a
    | .error e => .error e

/-- The members of a `(layers ...)` node, each through the `Layer` enum
constructor. -/
def layersOfNodes : List SNode → Except String (List Layer)
  | [] => .ok []
  | n :: rest =>
    match Layer.ofString? n.pyStr with
    | some l =>
      match layersOfNodes rest with
      | .ok ls => .ok (l :: ls)
      | .error e => .error e
    | none => .error "is not a valid Layer"

/-- `Pad` record. -/
structure Pad where
  number : String
  type : String
  shape : String
  at_ : PositionIdentifier
  size : ℚ × ℚ
  layers : List Layer
  roundrect_rratio : Option ℚ := none
  solder_mask_margin : Option ℚ := none
  thermal_bridge_angle : Option ℚ := none
  uuid : Option String := none
  deriving DecidableEq

/-- `Pad.from_sexp` (source lines 699-782). -/
def Pad.from_sexp : SNode → Except String Pad
  | .list (d0 :: d1 :: d2 :: d3 :: d4 :: d5 :: d6 :: rest) =>
    match d0 with
    | .sym "pad" =>
      match d4 with
      | .list (a0 :: a1 :: a2 :: arest) =>
        match a0 with
        | .sym "at" =>
          match posOfListItems (a0 :: a1 :: a2 :: arest) with
          | .error e => .error e
          | .ok pos =>
            match d5 with
            | .list [s0, s1, s2] =>
              match s0 with
              | .sym "size" =>
                match pyFloat? s1, pyFloat? s2 with
                | some sw, some sh =>
                  match d6 with
                  | .list (l0 :: l1 :: lrest) =>
                    match l0 with
                    | .sym "layers" =>
                      match layersOfNodes (l1 :: lrest) with
                      | .error e => .error e
                      | .ok layers =>
                        match padScanTail rest {} with
                        | .error e => .error e
                        | .ok o =>
                          .ok { number := d1.pyStr, type := d2.pyStr,
                                shape := d3.pyStr, at_ := pos, size := (sw, sh),
                                layers := layers,
                                roundrect_rratio := o.roundrect_rratio,
                                solder_mask_margin := o.solder_mask_margin,
                                thermal_bridge_angle := o.thermal_bridge_angle,
                                uuid := o.uuid }
                    | _ => .error "Invalid pad layers format"
                  | _ => .error "Invalid pad layers format"
                | _, _ => .error "could not convert to float"
              | _ => .error "Invalid pad size format"
            | _ => .error "Invalid pad size format"
        | _ => .error "Invalid pad position format"
      | _ => .error "Invalid pad position format"
    | _ => .error "Pad data must start with 'pad' symbol"
  | _ => .error "Invalid pad data format"

/-- `Pad.to_sexp` (source lines 784-809): the three optional floats are
guarded by `is not None`, the uuid by truthiness. -/
def Pad.to_sexp (p : Pad) : SNode :=
  .list ([SNode.sym "pad", .str p.number, .sym p.type, .sym p.shape,
          .list ([SNode.sym "at", .num p.at_.x, .num p.at_.y]
            ++ (match p.at_.angle with | some a => [SNode.num a] | none => [])),
          .list [.sym "size", .num p.size.1, .num p.size.2],
          .list (SNode.sym "layers" :: p.layers.map (fun l => SNode.str l.value))]
    ++ (match p.roundrect_rratio with
        | some q => [SNode.list [.sym "roundrect_rratio", .num q]] | none => [])
    ++ (match p.solder_mask_margin with
        | some q => [SNode.list [.sym "solder_mask_margin", .num q]] | none => [])
    ++ (match p.thermal_bridge_angle with
        | some q => [SNode.list [.sym "thermal_bridge_angle", .num q]] | none => [])
    ++ (if truthyS p.uuid then [SNode.list [.sym "uuid", .str (p.uuid.getD "")]] else []))

/-- Result of inspecting one child of the footprint body (source lines
1172-1184): dispatch by leading tag, or skip. -/
inductive ChildKind where
  | prop : Property → ChildKind
  | poly : Polygon → ChildKind
  | line : Line → ChildKind
  | pad : Pad → ChildKind
  | skip : ChildKind
  | fail : String → ChildKind

def classifyChild (item : SNode) : ChildKind :=
  match item with
  | .list (h :: t) =>
    let tag := SNode.pyStr h
    if tag = "property" then
      match Property.from_sexp (.list (h :: t)) with
      | .ok p => .prop p
      | .error e => .fail e
    else if tag = "fp_poly" then
      match Polygon.from_sexp (.list (h :: t)) with
      | .ok g => .poly g
      | .error e => .fail e
    else if tag = "fp_line" then
      match Line.from_sexp (.list (h :: t)) with
      | .ok l => .line l
      | .error e => .fail e
    else if tag = "pad" then
      match Pad.from_sexp (.list (h :: t)) with
      | .ok d => .pad d
      | .error e => .fail e
    else .skip
  | _ => .skip

/-- The child-scanning loop of `FootprintModel.from_sexp`: one linear pass,
collecting the four typed collections in input order. -/
def dispatchChildren :
    List SNode → Except String (List Property × List Polygon × List Line × List Pad)
  | [] => .ok ([], [], [], [])
  | item :: rest =>
    match classifyChild item with
    | .fail e => .error e
    | .skip => dispatchChildren rest
    | .prop p =>
      match dispatchChildren rest with
      | .ok (ps, gs, ls, ds) => .ok (p :: ps, gs, ls, ds)
      | .error e => .error e
    | .poly g =>
      match dispatchChildren rest with
      | .ok (ps, gs, ls, ds) => .ok (ps, g :: gs, ls, ds)
      | .error e => .error e
    | .line l =>
      match dispatchChildren rest with
      | .ok (ps, gs, ls, ds) => .ok (ps, gs, l :: ls, ds)
      | .error e => .error e
    | .pad d =>
      match dispatchChildren rest with
      | .ok (ps, gs, ls, ds) => .ok (ps, gs, ls, d :: ds)
      | .error e => .error e

/-- `FootprintModel` record. -/
structure FootprintModel where
  name : String
  version : String
  generator : String
  generator_version : String
  layer : Layer
  description : String
  properties : List Property
  polygons : List Polygon := []
  lines : List Line := []
  pads : List Pad := []
  deriving DecidableEq

/-- A fixed 2-element header field `(tag value)`: shape and tag check, then
`str(value)`. -/
def tagged2 (tag msg : String) : SNode → Except String String
  | .list [h, v] =>
    match h with
    | .sym s => if s = tag then .ok v.pyStr else .error msg
    | _ => .error msg
  | _ => .error msg

/-- Header processing of `FootprintModel.from_sexp` (source lines 1113-1164)
followed by the child scan. -/
def fpHeaderThen (d1 d2 d3 d4 d5 d6 : SNode) (rest : List SNode) :
    Except String FootprintModel :=
  match tagged2 "version" "Invalid version format" d2 with
  | .error e => .error e
  | .ok version =>
    match tagged2 "generator" "Invalid generator format" d3 with
    | .error e => .error e
    | .ok generator =>
      match tagged2 "generator_version" "Invalid generator version format" d4 with
      | .error e => .error e
      | .ok generator_version =>
        match tagged2 "layer" "Invalid layer format" d5 with
        | .error e => .error e
        | .ok layerStr =>
          match Layer.ofString? layerStr with
          | none => .error "is not a valid Layer"
          | some layer =>
            match tagged2 "descr" "Invalid description format" d6 with
            | .error e => .error e
            | .ok description =>
              match dispatchChildren rest with
              | .error e => .error e
              | .ok (ps, gs, ls, ds) =>
                .ok { name := d1.pyStr, version := version,
                      generator := generator,
                      generator_version := generator_version, layer := layer,
                      description := description, properties := ps,
                      polygons := gs, lines := ls, pads := ds }

/-- `FootprintModel.from_sexp` (source lines 1100-1197). -/
def FootprintModel.from_sexp : SNode → Except String FootprintModel
  | .list (d0 :: d1 :: d2 :: d3 :: d4 :: d5 :: d6 :: rest) =>
    match d0 with
    | .sym s =>
      if s = "footprint" then fpHeaderThen d1 d2 d3 d4 d5 d6 rest
      else .error "Footprint data must start with 'footprint' symbol"
    | _ => .error "Footprint data must start with 'footprint' symbol"
  | _ => .error "Invalid footprint data format"

/-- The fixed 7-element header emitted by `FootprintModel.to_sexp`. -/
def fpHeader (f : FootprintModel) : List SNode :=
  [SNode.sym "footprint", .str f.name,
   .list [.sym "version", .str f.version],
   .list [.sym "generator", .str f.generator],
   .list [.sym "generator_version", .str f.generator_version],
   .list [.sym "layer", .str f.layer.value],
   .list [.sym "descr", .str f.description]]

/-- `FootprintModel.to_sexp` (source lines 1199-1227): fixed header, then all
properties, then all polygons, then all lines, then all pads. -/
def FootprintModel.to_sexp (f : FootprintModel) : SNode :=
  .list (fpHeader f
    ++ f.properties.map Property.to_sexp
    ++ f.polygons.map Polygon.to_sexp
    ++ f.lines.map Line.to_sexp
    ++ f.pads.map Pad.to_sexp)

/-- `PageSettings` record: a standard paper size or a custom
width/height pair. -/
structure PageSettings where
  size : PaperSize ⊕ (ℚ × ℚ)
  portrait : Bool := false
  deriving DecidableEq

/-- Models `part.replace(".", "").replace("-", "").isdigit()`. -/
def isDigitish (p : String) : Bool :=
  let r := p.toList.filter (fun c => !(c == '.' || c == '-'))
  !r.isEmpty && r.all Char.isDigit

def pageCustomWH (p0 p1 : String) (portrait : Bool) : Except String PageSettings :=
  match parseFloat? p0, parseFloat? p1 with
  | some w, some h =>
    if w ≤ 0 ∨ h ≤ 0 then .error "Invalid numeric values in page settings"
    else .ok { size := .inr (w, h), portrait := portrait }
  | _, _ => .error "Invalid numeric values in page settings"

/-- Custom-size branch of `PageSettings.from_sexpr` (source lines 892-905). -/
def pageCustom (p0 p1 : String) : List String → Except String PageSettings
  | [] => pageCustomWH p0 p1 false
  | [p2] =>
    if p2 = "portrait" then pageCustomWH p0 p1 true
    else .error "Invalid paper size"
  | _ => .error "Invalid paper size"

/-- Standard-size branch of `PageSettings.from_sexpr` (source lines
906-913). -/
def pageStandard (p0 : String) : List String → Except String PageSettings
  | [] =>
    match PaperSize.ofString? p0 with
    | some s => .ok { size := .inl s, portrait := false }
    | none => .error "Invalid paper size"
  | [p1] =>
    if p1 = "portrait" then
      match PaperSize.ofString? p0 with
      | some s => .ok { size := .inl s, portrait := true }
      | none => .error "Invalid paper size"
    else .error "Invalid paper size"
  | _ => .error "Invalid paper size"

/-- Core of `PageSettings.from_sexpr` on the split components. -/
def pageFromParts : List String → Except String PageSettings
  | [] => .error "Page settings must have at least one component"
  | [p0] => pageStandard p0 []
  | p0 :: p1 :: rest =>
    if isDigitish p0 && isDigitish p1 then pageCustom p0 p1 rest
    else pageStandard p0 (p1 :: rest)

/-- `PageSettings.from_sexpr` (source lines 860-919). -/
def PageSettings.from_sexpr (s : String) : Except String PageSettings :=
  let t := s.trim
  if t.startsWith "(paper" && t.endsWith ")" then
    pageFromParts (pyWords ((t.drop 6).dropRight 1))
  else .error "Invalid page settings format"

/-- `PageSettings.to_sexpr` (source lines 921-933). -/
def PageSettings.to_sexpr (p : PageSettings) : String :=
  (match p.size with
   | .inr (w, h) => "(paper " ++ ratStr w ++ " " ++ ratStr h
   | .inl s => "(paper " ++ s.value)
  ++ (if p.portrait then " portrait" else "") ++ ")"

def isHexChar (c : Char) : Bool :=
  c.isDigit || ('a' ≤ c && c ≤ 'f') || ('A' ≤ c && c ≤ 'F')

def lbraceChar : Char := Char.ofNat 123

def rbraceChar : Char := Char.ofNat 125

/-- Replace every occurrence of a pattern, scanning left to right (the
spelled-out recursion behind Python `str.replace`); the fuel argument is the
input length, which bounds the number of steps. -/
def replaceAux (pat rep : List Char) : ℕ → List Char → List Char
  | _, [] => []
  | 0, cs => cs
  | fuel + 1, c :: rest =>
    if pat.isPrefixOf (c :: rest) then
      rep ++ replaceAux pat rep fuel ((c :: rest).drop pat.length)
    else c :: replaceAux pat rep fuel rest

/-- Models Python `s.replace(pat, rep)` for a non-empty pattern. -/
def pyReplace (s pat rep : String) : String :=
  if pat.isEmpty then s
  else String.mk (replaceAux pat.toList rep.toList s.toList.length s.toList)

/-- Models `uuid.UUID(v)` format acceptance along the hexadecimal-string path
of the CPython constructor: drop `urn:`/`uuid:` markers and surrounding
braces, remove hyphens, and require exactly 32 hexadecimal digits. -/
def pyUUIDok (v : String) : Bool :=
  let h := pyReplace (pyReplace v "urn:" "") "uuid:" ""
  let h := pyStrip (fun c => c == lbraceChar || c == rbraceChar) h
  let h := pyReplace h "-" ""
  h.length == 32 && h.toList.all isHexChar

/-- `UUID.validate_uuid` (source lines 944-953): the standalone `UUID` entity
is the only place that enforces UUID format. -/
def UUID.validate_uuid (v : String) : Except String String :=
  if pyUUIDok v then .ok v else .error "Invalid UUID format"

/-- `UUID.from_sexpr` (source lines 955-985). -/
def UUID.from_sexpr (s : String) : Except String String :=
  let t := s.trim
  if t.startsWith "(uuid" && t.endsWith ")" then
    match pyWords ((t.drop 5).dropRight 1) with
    | [v] => UUID.validate_uuid v
    | _ => .error "UUID must have exactly one component"
  else .error "Invalid UUID format"

/-!  Theorems settling the claims. -/

/-- A valid `TextEffects` whose font has an explicit thickness of `0.0`: the
witness that the encoder drops zero-valued optional floats. -/
def teThicknessZero : TextEffects := { font := { thickness := some 0 } }

/-- C1: the round-trip property `decode(encode(x)) = x` with exact float
comparison fails on the code: for the valid `TextEffects` value whose font
thickness is `0.0`, `to_sexp` omits the thickness node (the Python guard
`if self.font.thickness:` treats `0.0` as false), so decoding the encoding
returns `thickness = None`, not `0.0`.  The claim, stated from the spec, is
right about the intent and the encoder guard is the slip. -/
theorem roundtrip_zero_thickness_code_bug :
    Font.Valid teThicknessZero.font ∧
    TextEffects.to_sexp teThicknessZero =
      .list [.sym "effects",
             .list [.sym "font", .list [.sym "size", .num 1, .num 1]]] ∧
    TextEffects.from_sexp (TextEffects.to_sexp teThicknessZero) =
      .ok { font := {} } ∧
    ({ font := {} } : TextEffects) ≠ teThicknessZero := by
  refine ⟨by decide, by rfl, by decide, by decide⟩

/-- C2: the decoder rejects the degenerate polygon
`(fp_poly (pts) solid "F.Adhes")`: `Points.from_sexp` requires at least one
point (`len(data) < 2` guard), so the decode raises instead of succeeding
with zero points as the spec requires; the same node with one point
decodes fine. -/
theorem empty_pts_polygon_decode_fails :
    Points.from_sexp (.list [.sym "pts"]) = .error "Invalid points data format" ∧
    Polygon.from_sexp
        (.list [.sym "fp_poly", .list [.sym "pts"], .sym "solid", .str "F.Adhes"])
      = .error "Invalid points data format" ∧
    Polygon.from_sexp
        (.list [.sym "fp_poly", .list [.sym "pts", .list [.sym "xy", .num 0, .num 0]],
                .sym "solid", .str "F.Adhes"])
      = .ok { points := { points := [{ x := 0, y := 0 }] }, layer := .F_ADHES } := by
  refine ⟨by decide, by decide, by decide⟩

/-- C3: `PositionIdentifier` decoding accepts exactly the 2- and 3-component
positional numeric forms and rejects any other arity or a non-numeric
component; encoding an identifier without an angle emits exactly the two
coordinate tokens after the tag, never a third. -/
theorem position_identifier_arity :
    (∀ parts : List String, parts.length < 2 ∨ 3 < parts.length →
      posFromParts parts = .error "Position identifier must have 2 or 3 components") ∧
    (∀ a b x y, parseFloat? a = some x → parseFloat? b = some y →
      posFromParts [a, b] = .ok { x := x, y := y, angle := none }) ∧
    (∀ a b c x y ang, parseFloat? a = some x → parseFloat? b = some y →
      parseFloat? c = some ang →
      posFromParts [a, b, c] = .ok { x := x, y := y, angle := some ang }) ∧
    (∀ a b, parseFloat? a = none ∨ parseFloat? b = none →
      posFromParts [a, b] = .error "Invalid numeric values in position identifier") ∧
    (∀ a b c, parseFloat? a = none ∨ parseFloat? b = none ∨ parseFloat? c = none →
      posFromParts [a, b, c] = .error "Invalid numeric values in position identifier") ∧
    (∀ p : PositionIdentifier, p.angle = none →
      PositionIdentifier.to_sexpr p = "(at " ++ ratStr p.x ++ " " ++ ratStr p.y ++ ")") := by
  refine ⟨?_, ?_, ?_, ?_, ?_, ?_⟩
  · intro parts h
    match parts with
    | [] => rfl
    | [_] => rfl
    | [_, _] => simp at h
    | [_, _, _] => simp at h
    | _ :: _ :: _ :: _ :: _ => rfl
  · intro a b x y ha hb
    simp [posFromParts, ha, hb]
  · intro a b c x y ang ha hb hc
    simp [posFromParts, ha, hb, hc]
  · intro a b h
    rcases h with h | h
    · cases hb : parseFloat? b <;> simp [posFromParts, h, hb]
    · cases ha : parseFloat? a <;> simp [posFromParts, h, ha]
  · intro a b c h
    rcases h with h | h | h
    · cases hb : parseFloat? b <;> cases hc : parseFloat? c <;>
        simp [posFromParts, h, hb, hc]
    · cases ha : parseFloat? a <;> cases hc : parseFloat? c <;>
        simp [posFromParts, h, ha, hc]
    · cases ha : parseFloat? a <;> cases hb : parseFloat? b <;>
        simp [posFromParts, h, ha, hb]
  · intro p hp
    simp [PositionIdentifier.to_sexpr, hp]

theorem position_identifier_arity_witness :
    posFromParts ["1.0", "2.0"] = .ok { x := 1, y := 2, angle := none } ∧
    posFromParts ["1.0", "2.0", "90"] = .ok { x := 1, y := 2, angle := some 90 } ∧
    posFromParts ["1.0"] = .error "Position identifier must have 2 or 3 components" ∧
    posFromParts ["x", "y"] = .error "Invalid numeric values in position identifier" ∧
    PositionIdentifier.to_sexpr { x := 1, y := 2, angle := none } = "(at 1.0 2.0)" := by
  have h1 : parseFloat? "1.0" = some 1 :=
    parseFloat?_eval "1.0" (false, 1, 0, 1) (by decide) 1 (by norm_num [ratOfParts])
  have h2 : parseFloat? "2.0" = some 2 :=
    parseFloat?_eval "2.0" (false, 2, 0, 1) (by decide) 2 (by norm_num [ratOfParts])
  have h90 : parseFloat? "90" = some 90 :=
    parseFloat?_eval "90" (false, 90, 0, 0) (by decide) 90 (by norm_num [ratOfParts])
  have hx : parseFloat? "x" = none := by
    simp [parseFloat?, show parseDec "x" = none from by decide]
  exact ⟨position_identifier_arity.2.1 _ _ _ _ h1 h2,
         position_identifier_arity.2.2.1 _ _ _ _ _ _ h1 h2 h90,
         position_identifier_arity.1 ["1.0"] (by simp),
         position_identifier_arity.2.2.2.1 "x" "y" (Or.inl hx),
         position_identifier_arity.2.2.2.2.2 { x := 1, y := 2, angle := none } rfl⟩

/-- The leading tag of a footprint child as observed by the dispatch loop
(`str(item[0])` on a nonempty sequence). -/
def childTag : SNode → Option String
  | .list (h :: _) => some h.pyStr
  | _ => none

/-- The children carrying a given leading tag, in input order. -/
def childrenTagged (tag : String) (items : List SNode) : List SNode :=
  items.filter (fun it => childTag it == some tag)

/-- Decode every node of a list with the given entity decoder, failing on the
first error. -/
def decodeList {α : Type} (f : SNode → Except String α) :
    List SNode → Except String (List α)
  | [] => .ok []
  | x :: xs =>
    match f x with
    | .ok a =>
      match decodeList f xs with
      | .ok as => .ok (a :: as)
      | .error e => .error e
    | .error e => .error e

theorem classifyChild_skip {item : SNode} (h : classifyChild item = .skip) :
    childTag item ≠ some "property" ∧ childTag item ≠ some "fp_poly" ∧
      childTag item ≠ some "fp_line" ∧ childTag item ≠ some "pad" := by
  cases item with
  | sym s => simp [childTag]
  | str s => simp [childTag]
  | num q => simp [childTag]
  | list l =>
    cases l with
    | nil => simp [childTag]
    | cons x t =>
      simp only [classifyChild] at h
      simp only [childTag, Option.some.injEq, ne_eq]
      split at h
      · split at h <;> cases h
      · split at h
        · split at h <;> cases h
        · split at h
          · split at h <;> cases h
          · split at h
            · split at h <;> cases h
            · simp_all

theorem classifyChild_prop {item : SNode} {p : Property}
    (h : classifyChild item = .prop p) :
    childTag item = some "property" ∧ Property.from_sexp item = .ok p := by
  cases item with
  | sym s => simp [classifyChild] at h
  | str s => simp [classifyChild] at h
  | num q => simp [classifyChild] at h
  | list l =>
    cases l with
    | nil => simp [classifyChild] at h
    | cons x t =>
      simp only [classifyChild] at h
      split at h
      · split at h
        · simp_all [childTag]
        · cases h
      · split at h
        · split at h <;> cases h
        · split at h
          · split at h <;> cases h
          · split at h
            · split at h <;> cases h
            · cases h

theorem classifyChild_poly {item : SNode} {g : Polygon}
    (h : classifyChild item = .poly g) :
    childTag item = some "fp_poly" ∧ Polygon.from_sexp item = .ok g := by
  cases item with
  | sym s => simp [classifyChild] at h
  | str s => simp [classifyChild] at h
  | num q => simp [classifyChild] at h
  | list l =>
    cases l with
    | nil => simp [classifyChild] at h
    | cons x t =>
      simp only [classifyChild] at h
      split at h
      · split at h <;> cases h
      · split at h
        · split at h
          · simp_all [childTag]
          · cases h
        · split at h
          · split at h <;> cases h
          · split at h
            · split at h <;> cases h
            · cases h

theorem classifyChild_line {item : SNode} {l : Line}
    (h : classifyChild item = .line l) :
    childTag item = some "fp_line" ∧ Line.from_sexp item = .ok l := by
  cases item with
  | sym s => simp [classifyChild] at h
  | str s => simp [classifyChild] at h
  | num q => simp [classifyChild] at h
  | list ll =>
    cases ll with
    | nil => simp [classifyChild] at h
    | cons x t =>
      simp only [classifyChild] at h
      split at h
      · split at h <;> cases h
      · split at h
        · split at h <;> cases h
        · split at h
          · split at h
            · simp_all [childTag]
            · cases h
          · split at h
            · split at h <;> cases h
            · cases h

theorem classifyChild_pad {item : SNode} {d : Pad}
    (h : classifyChild item = .pad d) :
    childTag item = some "pad" ∧ Pad.from_sexp item = .ok d := by
  cases item with
  | sym s => simp [classifyChild] at h
  | str s => simp [classifyChild] at h
  | num q => simp [classifyChild] at h
  | list l =>
    cases l with
    | nil => simp [classifyChild] at h
    | cons x t =>
      simp only [classifyChild] at h
      split at h
      · split at h <;> cases h
      · split at h
        · split at h <;> cases h
        · split at h
          · split at h <;> cases h
          · split at h
            · split at h
              · simp_all [childTag]
              · cases h
            · cases h

theorem childrenTagged_cons_eq {tag : String} {item : SNode}
    (h : childTag item = some tag) (rest : List SNode) :
    childrenTagged tag (item :: rest) = item :: childrenTagged tag rest := by
  simp [childrenTagged, List.filter_cons, h]

theorem childrenTagged_cons_ne {tag : String} {item : SNode}
    (h : childTag item ≠ some tag) (rest : List SNode) :
    childrenTagged tag (item :: rest) = childrenTagged tag rest := by
  simp [childrenTagged, List.filter_cons, h]

/-- The dispatch loop splits the children by tag into the four collections,
preserving the within-tag input order. -/
theorem dispatch_spec :
    ∀ (items : List SNode) (ps : List Property) (gs : List Polygon)
      (ls : List Line) (ds : List Pad),
      dispatchChildren items = .ok (ps, gs, ls, ds) →
      decodeList Property.from_sexp (childrenTagged "property" items) = .ok ps ∧
      decodeList Polygon.from_sexp (childrenTagged "fp_poly" items) = .ok gs ∧
      decodeList Line.from_sexp (childrenTagged "fp_line" items) = .ok ls ∧
      decodeList Pad.from_sexp (childrenTagged "pad" items) = .ok ds := by
  intro items
  induction items with
  | nil =>
    intro ps gs ls ds h
    simp only [dispatchChildren, Except.ok.injEq, Prod.mk.injEq] at h
    obtain ⟨h1, h2, h3, h4⟩ := h
    subst h1 h2 h3 h4
    simp [childrenTagged, decodeList]
  | cons item rest ih =>
    intro ps gs ls ds h
    simp only [dispatchChildren] at h
    cases hc : classifyChild item with
    | fail e => rw [hc] at h; cases h
    | skip =>
      rw [hc] at h
      obtain ⟨hs1, hs2, hs3, hs4⟩ := classifyChild_skip hc
      have hr := ih ps gs ls ds h
      rw [childrenTagged_cons_ne hs1 rest, childrenTagged_cons_ne hs2 rest,
          childrenTagged_cons_ne hs3 rest, childrenTagged_cons_ne hs4 rest]
      exact hr
    | prop p =>
      rw [hc] at h
      cases hd : dispatchChildren rest with
      | error e => rw [hd] at h; cases h
      | ok quad =>
        obtain ⟨ps', gs', ls', ds'⟩ := quad
        rw [hd] at h
        simp only [Except.ok.injEq, Prod.mk.injEq] at h
        obtain ⟨h1, h2, h3, h4⟩ := h
        subst h1 h2 h3 h4
        obtain ⟨htag, hdec⟩ := classifyChild_prop hc
        obtain ⟨i1, i2, i3, i4⟩ := ih ps' gs' ls' ds' hd
        refine ⟨?_, ?_, ?_, ?_⟩
        · rw [childrenTagged_cons_eq htag rest]
          simp [decodeList, hdec, i1]
        · rw [childrenTagged_cons_ne (by rw [htag]; simp) rest]; exact i2
        · rw [childrenTagged_cons_ne (by rw [htag]; simp) rest]; exact i3
        · rw [childrenTagged_cons_ne (by rw [htag]; simp) rest]; exact i4
    | poly g =>
      rw [hc] at h
      cases hd : dispatchChildren rest with
      | error e => rw [hd] at h; cases h
      | ok quad =>
        obtain ⟨ps', gs', ls', ds'⟩ := quad
        rw [hd] at h
        simp only [Except.ok.injEq, Prod.mk.injEq] at h
        obtain ⟨h1, h2, h3, h4⟩ := h
        subst h1 h2 h3 h4
        obtain ⟨htag, hdec⟩ := classifyChild_poly hc
        obtain ⟨i1, i2, i3, i4⟩ := ih ps' gs' ls' ds' hd
        refine ⟨?_, ?_, ?_, ?_⟩
        · rw [childrenTagged_cons_ne (by rw [htag]; simp) rest]; exact i1
        · rw [childrenTagged_cons_eq htag rest]
          simp [decodeList, hdec, i2]
        · rw [childrenTagged_cons_ne (by rw [htag]; simp) rest]; exact i3
        · rw [childrenTagged_cons_ne (by rw [htag]; simp) rest]; exact i4
    | line l =>
      rw [hc] at h
      cases hd : dispatchChildren rest with
      | error e => rw [hd] at h; cases h
      | ok quad =>
        obtain ⟨ps', gs', ls', ds'⟩ := quad
        rw [hd] at h
        simp only [Except.ok.injEq, Prod.mk.injEq] at h
        obtain ⟨h1, h2, h3, h4⟩ := h
        subst h1 h2 h3 h4
        obtain ⟨htag, hdec⟩ := classifyChild_line hc
        obtain ⟨i1, i2, i3, i4⟩ := ih ps' gs' ls' ds' hd
        refine ⟨?_, ?_, ?_, ?_⟩
        · rw [childrenTagged_cons_ne (by rw [htag]; simp) rest]; exact i1
        · rw [childrenTagged_cons_ne (by rw [htag]; simp) rest]; exact i2
        · rw [childrenTagged_cons_eq htag rest]
          simp [decodeList, hdec, i3]
        · rw [childrenTagged_cons_ne (by rw [htag]; simp) rest]; exact i4
    | pad d =>
      rw [hc] at h
      cases hd : dispatchChildren rest with
      | error e => rw [hd] at h; cases h
      | ok quad =>
        obtain ⟨ps', gs', ls', ds'⟩ := quad
        rw [hd] at h
        simp only [Except.ok.injEq, Prod.mk.injEq] at h
        obtain ⟨h1, h2, h3, h4⟩ := h
        subst h1 h2 h3 h4
        obtain ⟨htag, hdec⟩ := classifyChild_pad hc
        obtain ⟨i1, i2, i3, i4⟩ := ih ps' gs' ls' ds' hd
        refine ⟨?_, ?_, ?_, ?_⟩
        · rw [childrenTagged_cons_ne (by rw [htag]; simp) rest]; exact i1
        · rw [childrenTagged_cons_ne (by rw [htag]; simp) rest]; exact i2
        · rw [childrenTagged_cons_ne (by rw [htag]; simp) rest]; exact i3
        · rw [childrenTagged_cons_eq htag rest]
          simp [decodeList, hdec, i4]

/-- A successful footprint decode runs the dispatch loop on everything after
the 6-field header. -/
theorem fpHeaderThen_dispatch {d1 d2 d3 d4 d5 d6 : SNode} {rest : List SNode}
    {fm : FootprintModel}
    (h : fpHeaderThen d1 d2 d3 d4 d5 d6 rest = .ok fm) :
    dispatchChildren rest = .ok (fm.properties, fm.polygons, fm.lines, fm.pads) := by
  unfold fpHeaderThen at h
  split at h
  · cases h
  · split at h
    · cases h
    · split at h
      · cases h
      · split at h
        · cases h
        · split at h
          · cases h
          · split at h
            · cases h
            · split at h
              · cases h
              · injection h with h2
                subst h2
                simp_all

/-- C4: decoding a footprint dispatches each child by its tag into the four
typed collections, preserving the relative input order of same-tag children,
and re-encoding emits the fixed header, then all properties, then all
polygons, then all lines, then all pads, each group in that preserved
order. -/
theorem footprint_dispatch_grouping :
    (∀ (d0 d1 d2 d3 d4 d5 d6 : SNode) (rest : List SNode) (fm : FootprintModel),
      FootprintModel.from_sexp
          (.list (d0 :: d1 :: d2 :: d3 :: d4 :: d5 :: d6 :: rest)) = .ok fm →
      decodeList Property.from_sexp (childrenTagged "property" rest)
          = .ok fm.properties ∧
      decodeList Polygon.from_sexp (childrenTagged "fp_poly" rest)
          = .ok fm.polygons ∧
      decodeList Line.from_sexp (childrenTagged "fp_line" rest) = .ok fm.lines ∧
      decodeList Pad.from_sexp (childrenTagged "pad" rest) = .ok fm.pads) ∧
    (∀ fm : FootprintModel,
      FootprintModel.to_sexp fm =
        .list (fpHeader fm ++ fm.properties.map Property.to_sexp
          ++ fm.polygons.map Polygon.to_sexp ++ fm.lines.map Line.to_sexp
          ++ fm.pads.map Pad.to_sexp)) := by
  constructor
  · intro d0 d1 d2 d3 d4 d5 d6 rest fm h
    have hd : dispatchChildren rest
        = .ok (fm.properties, fm.polygons, fm.lines, fm.pads) := by
      simp only [FootprintModel.from_sexp] at h
      split at h
      · split at h
        · exact fpHeaderThen_dispatch h
        · cases h
      · cases h
    exact dispatch_spec rest fm.properties fm.polygons fm.lines fm.pads hd
  · intro fm
    rfl

def childA : SNode := .list [.sym "property", .str "A", .str "1"]

def childB : SNode := .list [.sym "property", .str "B", .str "2"]

def childP : SNode := .list [.sym "pad", .str "1", .sym "smd", .sym "rect",
  .list [.sym "at", .num 0, .num 0], .list [.sym "size", .num 1, .num 1],
  .list [.sym "layers", .str "F.Cu"]]

def fmSample : FootprintModel :=
  { name := "t", version := "1", generator := "g", generator_version := "gv",
    layer := .F_CU, description := "d",
    properties := [{ key := "A", value := "1" }, { key := "B", value := "2" }],
    pads := [{ number := "1", type := "smd", shape := "rect",
               at_ := { x := 0, y := 0 }, size := (1, 1), layers := [.F_CU] }] }

theorem footprint_dispatch_grouping_witness :
    decodeList Property.from_sexp (childrenTagged "property" [childA, childP, childB])
      = .ok fmSample.properties ∧
    decodeList Pad.from_sexp (childrenTagged "pad" [childA, childP, childB])
      = .ok fmSample.pads ∧
    FootprintModel.to_sexp fmSample =
      .list (fpHeader fmSample ++ fmSample.properties.map Property.to_sexp
        ++ fmSample.polygons.map Polygon.to_sexp
        ++ fmSample.lines.map Line.to_sexp
        ++ fmSample.pads.map Pad.to_sexp) := by
  have h := footprint_dispatch_grouping.1 (.sym "footprint") (.str "t")
    (.list [.sym "version", .str "1"]) (.list [.sym "generator", .str "g"])
    (.list [.sym "generator_version", .str "gv"]) (.list [.sym "layer", .str "F.Cu"])
    (.list [.sym "descr", .str "d"]) [childA, childP, childB] fmSample (by decide)
  exact ⟨h.1, h.2.2.2, footprint_dispatch_grouping.2 fmSample⟩

/-- C5: vocabulary closure — any token outside the closed Layer, StrokeType
or PaperSize vocabulary fails to decode (exact-string, case-sensitive
matching, no aliasing). -/
theorem vocabulary_closure :
    (∀ s : String, s ∉ layerVocab →
      Layer.from_sexp s = .error "Invalid layer name") ∧
    (∀ (w : SNode) (wq : ℚ) (t : String), t ∉ strokeTypeVocab →
      pyFloat? w = some wq →
      Stroke.from_sexp (.list [.sym "stroke", .list [.sym "width", w],
        .list [.sym "type", .str t]]) = .error "Invalid stroke values") ∧
    (∀ t : String, t ∉ paperSizeVocab →
      pageFromParts [t] = .error "Invalid paper size") := by
  refine ⟨?_, ?_, ?_⟩
  · intro s h
    simp [Layer.from_sexp, layer_ofString_eq_none h]
  · intro w wq t ht hw
    simp [Stroke.from_sexp, SNode.pyStr, hw, strokeType_ofString_eq_none ht]
  · intro t ht
    simp [pageFromParts, pageStandard, paperSize_ofString_eq_none ht]

theorem vocabulary_closure_witness :
    Layer.from_sexp "F.CU" = .error "Invalid layer name" ∧
    Stroke.from_sexp (.list [.sym "stroke", .list [.sym "width", .num 1],
      .list [.sym "type", .str "Solid"]]) = .error "Invalid stroke values" ∧
    pageFromParts ["a4"] = .error "Invalid paper size" :=
  ⟨vocabulary_closure.1 "F.CU" (by decide),
   vocabulary_closure.2.1 (.num 1) 1 "Solid" (by decide) rfl,
   vocabulary_closure.2.2 "a4" (by decide)⟩

theorem padScanTail_append (xs ys : List SNode) (acc : PadOpts) :
    padScanTail (xs ++ ys) acc =
      match padScanTail xs acc with
      | .ok a => padScanTail ys a
      | .error e => .error e := by
  induction xs generalizing acc with
  | nil => rfl
  | cons x xs ih =>
    cases h : padStep acc x with
    | ok a => simp only [List.cons_append, padScanTail, h]; exact ih a
    | error e => simp only [List.cons_append, padScanTail, h]

theorem propScanTail_append (xs ys : List SNode) (acc : Property) :
    propScanTail (xs ++ ys) acc =
      match propScanTail xs acc with
      | .ok a => propScanTail ys a
      | .error e => .error e := by
  induction xs generalizing acc with
  | nil => rfl
  | cons x xs ih =>
    cases h : propStep acc x with
    | ok a => simp only [List.cons_append, propScanTail, h]; exact ih a
    | error e => simp only [List.cons_append, propScanTail, h]

/-- C6: last-wins for duplicated optional tags — appending one more
occurrence of an optional tag to the tail overwrites whatever an earlier
occurrence had set, the decode succeeds, and no error is raised for the
duplicate.  Shown for the `Pad` scan (`uuid` and `roundrect_rratio`) and the
`Property` scan (`uuid`). -/
theorem optional_tail_last_wins :
    (∀ (items : List SNode) (acc res : PadOpts) (u : String),
      padScanTail items acc = .ok res →
      padScanTail (items ++ [.list [.sym "uuid", .str u]]) acc
        = .ok { res with uuid := some u }) ∧
    (∀ (items : List SNode) (acc res : PadOpts) (q : ℚ),
      padScanTail items acc = .ok res →
      padScanTail (items ++ [.list [.sym "roundrect_rratio", .num q]]) acc
        = .ok { res with roundrect_rratio := some q }) ∧
    (∀ (items : List SNode) (acc res : Property) (u : String),
      propScanTail items acc = .ok res →
      propScanTail (items ++ [.list [.sym "uuid", .str u]]) acc
        = .ok { res with uuid := some u }) := by
  refine ⟨?_, ?_, ?_⟩
  · intro items acc res u h
    rw [padScanTail_append, h]
    simp [padScanTail, padStep, SNode.pyStr]
  · intro items acc res q h
    rw [padScanTail_append, h]
    simp [padScanTail, padStep, SNode.pyStr, pyFloat?]
  · intro items acc res u h
    rw [propScanTail_append, h]
    simp [propScanTail, propStep, SNode.pyStr]

theorem optional_tail_last_wins_witness :
    padScanTail [.list [.sym "uuid", .str "first"],
      .list [.sym "uuid", .str "second"]] {} = .ok { uuid := some "second" } ∧
    propScanTail [.list [.sym "uuid", .str "first"],
        .list [.sym "uuid", .str "second"]] { key := "k", value := "v" }
      = .ok { key := "k", value := "v", uuid := some "second" } := by
  constructor
  · have h := optional_tail_last_wins.1 [.list [.sym "uuid", .str "first"]] {}
      { uuid := some "first" } "second" (by decide)
    simpa using h
  · have h := optional_tail_last_wins.2.2 [.list [.sym "uuid", .str "first"]]
      { key := "k", value := "v" } { key := "k", value := "v", uuid := some "first" }
      "second" (by decide)
    simpa using h

/-- The shape the footprint header demands of a fixed field: a 2-element
sequence whose head is the given tag symbol. -/
def tagged2Shape (tag : String) : SNode → Bool
  | .list [h, _] =>
    match h with
    | .sym s => s == tag
    | _ => false
  | _ => false

theorem tagged2_ok_inv {tag msg v : String} {n : SNode}
    (h : tagged2 tag msg n = .ok v) :
    tagged2Shape tag n = true ∧
      ∃ vn : SNode, n = .list [.sym tag, vn] ∧ v = vn.pyStr := by
  cases n with
  | sym s => cases h
  | str s => cases h
  | num q => cases h
  | list l =>
    cases l with
    | nil => cases h
    | cons a l2 =>
      cases l2 with
      | nil => cases h
      | cons b l3 =>
        cases l3 with
        | cons c l4 => cases h
        | nil =>
          cases a with
          | sym s =>
            simp only [tagged2] at h
            split at h
            · rename_i hs
              subst hs
              cases h
              exact ⟨by simp [tagged2Shape], b, rfl, rfl⟩
            · cases h
          | str s => cases h
          | num q => cases h
          | list m => cases h

/-- Well-formedness of the five tagged header fields, including the layer
name being in the closed vocabulary. -/
def headerOk (d2 d3 d4 d5 d6 : SNode) : Bool :=
  tagged2Shape "version" d2 && tagged2Shape "generator" d3 &&
    tagged2Shape "generator_version" d4 && tagged2Shape "layer" d5 &&
    (match d5 with
     | .list [_, v] => (Layer.ofString? v.pyStr).isSome
     | _ => false) &&
    tagged2Shape "descr" d6

theorem fpHeaderThen_ok_header {d1 d2 d3 d4 d5 d6 : SNode} {rest : List SNode}
    {fm : FootprintModel} (h : fpHeaderThen d1 d2 d3 d4 d5 d6 rest = .ok fm) :
    headerOk d2 d3 d4 d5 d6 = true := by
  unfold fpHeaderThen at h
  split at h
  · cases h
  · rename_i v hv
    split at h
    · cases h
    · rename_i g hg
      split at h
      · cases h
      · rename_i gv hgv
        split at h
        · cases h
        · rename_i lv hlv
          split at h
          · cases h
          · rename_i lay hlay
            split at h
            · cases h
            · rename_i dv hdv
              split at h
              · cases h
              · obtain ⟨hs2, -⟩ := tagged2_ok_inv hv
                obtain ⟨hs3, -⟩ := tagged2_ok_inv hg
                obtain ⟨hs4, -⟩ := tagged2_ok_inv hgv
                obtain ⟨hs5, v5, hd5, hvv5⟩ := tagged2_ok_inv hlv
                obtain ⟨hs6, -⟩ := tagged2_ok_inv hdv
                subst hd5
                simp only [headerOk, hs2, hs3, hs4, hs5, hs6, ← hvv5, hlay,
                  Bool.and_true, Bool.true_and, Option.isSome_some]

/-- A footprint body child the dispatch loop skips: not a sequence, an empty
sequence, or a leading tag outside the four recognized ones. -/
def childSkippable : SNode → Bool
  | .list (h :: _) =>
    let tag := SNode.pyStr h
    !(tag == "property" || tag == "fp_poly" || tag == "fp_line" || tag == "pad")
  | _ => true

theorem classifyChild_of_skippable {item : SNode} (h : childSkippable item = true) :
    classifyChild item = .skip := by
  cases item with
  | sym s => rfl
  | str s => rfl
  | num q => rfl
  | list l =>
    cases l with
    | nil => rfl
    | cons x t =>
      simp only [childSkippable, Bool.not_eq_eq_eq_not, Bool.not_true,
        Bool.or_eq_false_iff, beq_eq_false_iff_ne, ne_eq] at h
      obtain ⟨⟨⟨h1, h2⟩, h3⟩, h4⟩ := h
      simp [classifyChild, h1, h2, h3, h4]

/-- Inserting a skippable child anywhere in the body leaves the dispatch
result unchanged. -/
theorem dispatch_middle_skip {item : SNode} (h : classifyChild item = .skip) :
    ∀ pre post : List SNode,
      dispatchChildren (pre ++ item :: post) = dispatchChildren (pre ++ post) := by
  intro pre
  induction pre with
  | nil =>
    intro post
    simp [dispatchChildren, h]
  | cons x xs ih =>
    intro post
    simp only [List.cons_append, dispatchChildren, List.append_eq]
    rw [ih post]

theorem fpHeaderThen_congr_rest {d1 d2 d3 d4 d5 d6 : SNode} {r1 r2 : List SNode}
    (h : dispatchChildren r1 = dispatchChildren r2) :
    fpHeaderThen d1 d2 d3 d4 d5 d6 r1 = fpHeaderThen d1 d2 d3 d4 d5 d6 r2 := by
  unfold fpHeaderThen
  rw [h]

/-- C7: the footprint decode is strict on its fixed header — too few elements
or any malformed header field (version, generator, generator_version, layer,
descr: wrong shape, wrong tag, or a layer name outside the vocabulary)
aborts the whole decode with an error — while a body child whose tag is not
one of property/fp_poly/fp_line/pad is silently skipped and never causes
failure. -/
theorem footprint_header_strict_children_lenient :
    (∀ l : List SNode, l.length < 7 →
      FootprintModel.from_sexp (.list l) = .error "Invalid footprint data format") ∧
    (∀ (d0 d1 d2 d3 d4 d5 d6 : SNode) (rest : List SNode),
      headerOk d2 d3 d4 d5 d6 = false →
      ∃ e, FootprintModel.from_sexp
        (.list (d0 :: d1 :: d2 :: d3 :: d4 :: d5 :: d6 :: rest)) = .error e) ∧
    (∀ item : SNode, childSkippable item = true →
      ∀ (d0 d1 d2 d3 d4 d5 d6 : SNode) (pre post : List SNode),
        FootprintModel.from_sexp
            (.list (d0 :: d1 :: d2 :: d3 :: d4 :: d5 :: d6 :: (pre ++ item :: post)))
          = FootprintModel.from_sexp
            (.list (d0 :: d1 :: d2 :: d3 :: d4 :: d5 :: d6 :: (pre ++ post)))) := by
  refine ⟨?_, ?_, ?_⟩
  · intro l hl
    match l with
    | [] => rfl
    | [_] => rfl
    | [_, _] => rfl
    | [_, _, _] => rfl
    | [_, _, _, _] => rfl
    | [_, _, _, _, _] => rfl
    | [_, _, _, _, _, _] => rfl
    | _ :: _ :: _ :: _ :: _ :: _ :: _ :: _ =>
      simp only [List.length_cons] at hl
      omega
  · intro d0 d1 d2 d3 d4 d5 d6 rest hbad
    cases hres : FootprintModel.from_sexp
        (.list (d0 :: d1 :: d2 :: d3 :: d4 :: d5 :: d6 :: rest)) with
    | error e => exact ⟨e, rfl⟩
    | ok fm =>
      exfalso
      have hok : headerOk d2 d3 d4 d5 d6 = true := by
        simp only [FootprintModel.from_sexp] at hres
        split at hres
        · split at hres
          · exact fpHeaderThen_ok_header hres
          · cases hres
        · cases hres
      rw [hok] at hbad
      cases hbad
  · intro item hsk d0 d1 d2 d3 d4 d5 d6 pre post
    have hms := dispatch_middle_skip (classifyChild_of_skippable hsk) pre post
    cases d0 with
    | sym s =>
      simp only [FootprintModel.from_sexp]
      by_cases hs : s = "footprint"
      · simp only [hs, if_true]
        exact fpHeaderThen_congr_rest hms
      · simp [hs]
    | str s => rfl
    | num q => rfl
    | list l2 => rfl

theorem footprint_header_strict_children_lenient_witness :
    FootprintModel.from_sexp (.list [.sym "footprint", .str "t"])
      = .error "Invalid footprint data format" ∧
    (∃ e, FootprintModel.from_sexp (.list [.sym "footprint", .str "t",
      .list [.sym "wrong_tag", .str "1"], .list [.sym "generator", .str "g"],
      .list [.sym "generator_version", .str "gv"], .list [.sym "layer", .str "F.Cu"],
      .list [.sym "descr", .str "d"]]) = .error e) ∧
    FootprintModel.from_sexp (.list [.sym "footprint", .str "t",
        .list [.sym "version", .str "1"], .list [.sym "generator", .str "g"],
        .list [.sym "generator_version", .str "gv"], .list [.sym "layer", .str "F.Cu"],
        .list [.sym "descr", .str "d"],
        .list [.sym "mystery_child", .num 3],
        .list [.sym "property", .str "A", .str "1"]])
      = FootprintModel.from_sexp (.list [.sym "footprint", .str "t",
        .list [.sym "version", .str "1"], .list [.sym "generator", .str "g"],
        .list [.sym "generator_version", .str "gv"], .list [.sym "layer", .str "F.Cu"],
        .list [.sym "descr", .str "d"],
        .list [.sym "property", .str "A", .str "1"]]) := by
  refine ⟨?_, ?_, ?_⟩
  · exact footprint_header_strict_children_lenient.1 [.sym "footprint", .str "t"]
      (by simp)
  · exact footprint_header_strict_children_lenient.2.1 (.sym "footprint") (.str "t")
      (.list [.sym "wrong_tag", .str "1"]) (.list [.sym "generator", .str "g"])
      (.list [.sym "generator_version", .str "gv"]) (.list [.sym "layer", .str "F.Cu"])
      (.list [.sym "descr", .str "d"]) [] (by decide)
  · exact footprint_header_strict_children_lenient.2.2
      (.list [.sym "mystery_child", .num 3]) (by decide) (.sym "footprint") (.str "t")
      (.list [.sym "version", .str "1"]) (.list [.sym "generator", .str "g"])
      (.list [.sym "generator_version", .str "gv"]) (.list [.sym "layer", .str "F.Cu"])
      (.list [.sym "descr", .str "d"]) []
      [.list [.sym "property", .str "A", .str "1"]]

/-- A pad-tail element the scan skips unconditionally: not a sequence, or a
sequence with fewer than two members. -/
def padShortOrAtom : SNode → Bool
  | .list (_ :: _ :: _) => false
  | _ => true

theorem padStep_skip {it : SNode} (h : padShortOrAtom it = true) (acc : PadOpts) :
    padStep acc it = .ok acc := by
  cases it with
  | sym s => rfl
  | str s => rfl
  | num q => rfl
  | list l =>
    cases l with
    | nil => rfl
    | cons a l2 =>
      cases l2 with
      | nil => rfl
      | cons b l3 => simp [padShortOrAtom] at h

theorem padScanTail_all_skip {items : List SNode}
    (h : ∀ it ∈ items, padShortOrAtom it = true) (acc : PadOpts) :
    padScanTail items acc = .ok acc := by
  induction items with
  | nil => rfl
  | cons x xs ih =>
    have hx := h x (List.mem_cons_self x xs)
    simp only [padScanTail, padStep_skip hx acc]
    exact ih (fun it hit => h it (List.mem_cons_of_mem x hit))

/-- C8: in the pad optional tail, every element that is not a sequence of
length at least two (bare atom, empty sequence, one-element sequence) is
silently skipped, so a tail of only such elements decodes with all optional
fields unset — also through the full pad decode — while a tagged element
whose payload fails the float conversion raises. -/
theorem pad_tail_skip_and_numeric_strict :
    (∀ items : List SNode, (∀ it ∈ items, padShortOrAtom it = true) →
      padScanTail items {} = .ok {}) ∧
    (∀ items : List SNode, (∀ it ∈ items, padShortOrAtom it = true) →
      Pad.from_sexp (.list (.sym "pad" :: .str "1" :: .sym "smd" :: .sym "rect" ::
          .list [.sym "at", .num 0, .num 0] :: .list [.sym "size", .num 1, .num 1] ::
          .list [.sym "layers", .str "F.Cu"] :: items))
        = .ok { number := "1", type := "smd", shape := "rect",
                at_ := { x := 0, y := 0 }, size := (1, 1), layers := [.F_CU] }) ∧
    (∀ a : SNode, pyFloat? a = none →
      padScanTail [.list [.sym "roundrect_rratio", a]] {}
        = .error "could not convert to float") := by
  refine ⟨?_, ?_, ?_⟩
  · intro items h
    exact padScanTail_all_skip h {}
  · intro items h
    simp [Pad.from_sexp, posOfListItems, pyFloat?, layersOfNodes, SNode.pyStr,
      Layer.ofString?, padScanTail_all_skip h]
  · intro a ha
    simp [padScanTail, padStep, SNode.pyStr, ha]

theorem pad_tail_skip_and_numeric_strict_witness :
    padScanTail [.sym "locked", .list [], .list [.sym "lonely"]] {} = .ok {} ∧
    Pad.from_sexp (.list (.sym "pad" :: .str "1" :: .sym "smd" :: .sym "rect" ::
        .list [.sym "at", .num 0, .num 0] :: .list [.sym "size", .num 1, .num 1] ::
        .list [.sym "layers", .str "F.Cu"] ::
        [.sym "locked", .list [], .list [.sym "lonely"]]))
      = .ok { number := "1", type := "smd", shape := "rect",
              at_ := { x := 0, y := 0 }, size := (1, 1), layers := [.F_CU] } ∧
    padScanTail [.list [.sym "roundrect_rratio", .sym "abc"]] {}
      = .error "could not convert to float" := by
  refine ⟨?_, ?_, ?_⟩
  · exact pad_tail_skip_and_numeric_strict.1
      [.sym "locked", .list [], .list [.sym "lonely"]] (by decide)
  · exact pad_tail_skip_and_numeric_strict.2.1
      [.sym "locked", .list [], .list [.sym "lonely"]] (by decide)
  · exact pad_tail_skip_and_numeric_strict.2.2 (.sym "abc")
      (by simp [pyFloat?, show parseDec "abc" = none from by decide, parseFloat?])

/-- C9: the Property optional-tail scan is asymmetric — a sequence with an
unrecognized leading tag is silently ignored, while a bare atom other than
`hide` always raises. -/
theorem property_tail_asymmetric :
    (∀ (h : SNode) (t rest : List SNode) (acc : Property),
      SNode.pyStr h ∉ ["at", "layer", "effects", "uuid", "unlocked"] →
      propScanTail (.list (h :: t) :: rest) acc = propScanTail rest acc) ∧
    (∀ (a : SNode) (rest : List SNode) (acc : Property),
      (∀ l : List SNode, a ≠ .list l) → SNode.pyStr a ≠ "hide" →
      propScanTail (a :: rest) acc = .error "Invalid optional field format") := by
  constructor
  · intro h t rest acc hmem
    simp only [List.mem_cons, List.not_mem_nil, or_false, not_or] at hmem
    obtain ⟨n1, n2, n3, n4, n5⟩ := hmem
    simp [propScanTail, propStep, n1, n2, n3, n4, n5]
  · intro a rest acc hnl hne
    cases a with
    | sym s => simp [propScanTail, propStep, hne]
    | str s => simp [propScanTail, propStep, hne]
    | num q => simp [propScanTail, propStep, hne]
    | list l => exact absurd rfl (hnl l)

theorem property_tail_asymmetric_witness :
    propScanTail [.list [.sym "unknown_tag", .num 1]] { key := "k", value := "v" }
      = propScanTail [] { key := "k", value := "v" } ∧
    propScanTail [.sym "unknown_flag"] { key := "k", value := "v" }
      = .error "Invalid optional field format" :=
  ⟨property_tail_asymmetric.1 (.sym "unknown_tag") [.num 1] []
     { key := "k", value := "v" } (by decide),
   property_tail_asymmetric.2 (.sym "unknown_flag") [] { key := "k", value := "v" }
     (fun l h => nomatch h) (by decide)⟩

/-- C10: the uuid fields of Property, Polygon, Line and Pad are stored
verbatim with no format validation — decoding succeeds for every string and
preserves it — while the standalone UUID entity alone enforces the UUID
format. -/
theorem uuid_fields_not_validated :
    (∀ s : String,
      Property.from_sexp (.list [.sym "property", .str "k", .str "v",
          .list [.sym "uuid", .str s]])
        = .ok { key := "k", value := "v", uuid := some s }) ∧
    (∀ s : String,
      Polygon.from_sexp (.list [.sym "fp_poly",
          .list [.sym "pts", .list [.sym "xy", .num 0, .num 0]],
          .sym "solid", .str "F.Adhes", .list [.sym "uuid", .str s]])
        = .ok { points := { points := [{ x := 0, y := 0 }] }, layer := .F_ADHES,
                uuid := some s }) ∧
    (∀ s : String,
      Line.from_sexp (.list [.sym "fp_line",
          .list [.sym "start", .num 0, .num 0], .list [.sym "end", .num 1, .num 1],
          .list [.sym "stroke", .list [.sym "width", .num 0],
                 .list [.sym "type", .sym "solid"]],
          .str "F.Cu", .list [.sym "uuid", .str s]])
        = .ok { start := { x := 0, y := 0 }, end_ := { x := 1, y := 1 },
                stroke := { width := 0 }, layer := .F_CU, uuid := some s }) ∧
    (∀ s : String,
      Pad.from_sexp (.list [.sym "pad", .str "1", .sym "smd", .sym "rect",
          .list [.sym "at", .num 0, .num 0], .list [.sym "size", .num 1, .num 1],
          .list [.sym "layers", .str "F.Cu"], .list [.sym "uuid", .str s]])
        = .ok { number := "1", type := "smd", shape := "rect",
                at_ := { x := 0, y := 0 }, size := (1, 1), layers := [.F_CU],
                uuid := some s }) ∧
    UUID.validate_uuid "not-a-uuid" = .error "Invalid UUID format" ∧
    UUID.validate_uuid "4730c81d-f4ad-4788-8015-fd6db48f4259"
      = .ok "4730c81d-f4ad-4788-8015-fd6db48f4259" := by
  refine ⟨?_, ?_, ?_, ?_, ?_, ?_⟩
  · intro s; rfl
  · intro s; rfl
  · intro s; rfl
  · intro s; rfl
  · decide
  · decide

theorem uuid_fields_not_validated_witness :
    Property.from_sexp (.list [.sym "property", .str "k", .str "v",
        .list [.sym "uuid", .str "not-a-uuid"]])
      = .ok { key := "k", value := "v", uuid := some "not-a-uuid" } ∧
    Pad.from_sexp (.list [.sym "pad", .str "1", .sym "smd", .sym "rect",
        .list [.sym "at", .num 0, .num 0], .list [.sym "size", .num 1, .num 1],
        .list [.sym "layers", .str "F.Cu"], .list [.sym "uuid", .str "not-a-uuid"]])
      = .ok { number := "1", type := "smd", shape := "rect",
              at_ := { x := 0, y := 0 }, size := (1, 1), layers := [.F_CU],
              uuid := some "not-a-uuid" } :=
  ⟨uuid_fields_not_validated.1 "not-a-uuid",
   uuid_fields_not_validated.2.2.2.1 "not-a-uuid"⟩

end Kicad
